import Mathlib

/-!
Shallow embedding of the Phemex REST client (src/onecall/phemex.py) and
proofs about its request-signing routine, endpoint descriptor table and
response handling.

Conventions of the embedding:
* Machine integers are Nat; 32-bit overflow is made explicit with a
  reduction modulo 2 ^ 32 wherever the source (hashlib) wraps.
* Byte strings are List Nat with every element below 256.
* Python str values keep their Lean String form; Python dict payloads are
  association lists List (String × String) in which the second component
  stores the Python repr text of the value (for example a string value v
  is stored as the text \x27v\x27), so that the Python str() of the dict
  is the literal concatenation performed by pyDictStr below.
* Fallible Python code is embedded with Except PyErr; the external HTTP
  transport and the pandas DataFrame constructor are collaborators outside
  this repository and appear as explicit function parameters.
-/

/-- Python exception classes that the embedded code paths can raise. -/
inductive PyErr where
  | typeError
  | keyError
  | attributeError
  | valueError
deriving DecidableEq

/-- Reduce modulo 2 ^ 32: the word size of the SHA-256 state. -/
def w32 (n : Nat) : Nat := n % 4294967296

/-- Rotate a 32-bit word right by n bits. -/
def rotr32 (x n : Nat) : Nat := w32 (Nat.lor (x >>> n) (x <<< (32 - n)))

/-- The big sigma-0 function of the SHA-256 compression loop. -/
def bsig0 (x : Nat) : Nat := Nat.xor (rotr32 x 2) (Nat.xor (rotr32 x 13) (rotr32 x 22))

/-- The big sigma-1 function of the SHA-256 compression loop. -/
def bsig1 (x : Nat) : Nat := Nat.xor (rotr32 x 6) (Nat.xor (rotr32 x 11) (rotr32 x 25))

/-- The small sigma-0 function of the SHA-256 message schedule. -/
def ssig0 (x : Nat) : Nat := Nat.xor (rotr32 x 7) (Nat.xor (rotr32 x 18) (x >>> 3))

/-- The small sigma-1 function of the SHA-256 message schedule. -/
def ssig1 (x : Nat) : Nat := Nat.xor (rotr32 x 17) (Nat.xor (rotr32 x 19) (x >>> 10))

/-- The SHA-256 choice function. -/
def chf (x y z : Nat) : Nat := Nat.xor (Nat.land x y) (Nat.land (w32 (Nat.xor x 4294967295)) z)

/-- The SHA-256 majority function. -/
def maj (x y z : Nat) : Nat :=
  Nat.xor (Nat.land x y) (Nat.xor (Nat.land x z) (Nat.land y z))

/-- The 64 SHA-256 round constants of FIPS 180-4, in decimal. -/
def K256 : List Nat := [
  1116352408, 1899447441, 3049323471, 3921009573, 961987163, 1508970993,
  2453635748, 2870763221, 3624381080, 310598401, 607225278, 1426881987,
  1925078388, 2162078206, 2614888103, 3248222580, 3835390401, 4022224774,
  264347078, 604807628, 770255983, 1249150122, 1555081692, 1996064986,
  2554220882, 2821834349, 2952996808, 3210313671, 3336571891, 3584528711,
  113926993, 338241895, 666307205, 773529912, 1294757372, 1396182291,
  1695183700, 1986661051, 2177026350, 2456956037, 2730485921, 2820302411,
  3259730800, 3345764771, 3516065817, 3600352804, 4094571909, 275423344,
  430227734, 506948616, 659060556, 883997877, 958139571, 1322822218,
  1537002063, 1747873779, 1955562222, 2024104815, 2227730452, 2361852424,
  2428436474, 2756734187, 3204031479, 3329325298]

/-- The eight working registers of SHA-256; also used as the hash state. -/
structure Regs where
  a : Nat
  b : Nat
  c : Nat
  d : Nat
  e : Nat
  f : Nat
  g : Nat
  h : Nat

/-- The SHA-256 initial hash value of FIPS 180-4, in decimal. -/
def initRegs : Regs :=
  ⟨1779033703, 3144134277, 1013904242, 2773480762,
   1359893119, 2600822924, 528734635, 1541459225⟩

/-- Assemble a big-endian 32-bit word from four bytes. -/
def beWord (b0 b1 b2 b3 : Nat) : Nat := ((b0 * 256 + b1) * 256 + b2) * 256 + b3

/-- Group a byte list into big-endian 32-bit words. -/
def blockWords : List Nat → List Nat
  | b0 :: b1 :: b2 :: b3 :: rest => beWord b0 b1 b2 b3 :: blockWords rest
  | _ => []

/-- Extend a 16-word message schedule by the given number of further words. -/
def extendWs : Nat → List Nat → List Nat
  | 0, ws => ws
  | fuel + 1, ws =>
      let n := ws.length
      extendWs fuel (ws ++ [w32 (ssig1 (ws.getD (n - 2) 0) + ws.getD (n - 7) 0 +
        ssig0 (ws.getD (n - 15) 0) + ws.getD (n - 16) 0)])

/-- One round of the SHA-256 compression loop; the pair carries the round
constant and the schedule word. -/
def roundStep (r : Regs) (kw : Nat × Nat) : Regs :=
  let t1 := w32 (r.h + bsig1 r.e + chf r.e r.f r.g + kw.1 + kw.2)
  let t2 := w32 (bsig0 r.a + maj r.a r.b r.c)
  ⟨w32 (t1 + t2), r.a, r.b, r.c, w32 (r.d + t1), r.e, r.f, r.g⟩

/-- Compress one 64-byte block into the running hash state. -/
def compress (H : Regs) (block : List Nat) : Regs :=
  let ws := extendWs 48 (blockWords block)
  let r := (K256.zip ws).foldl roundStep H
  ⟨w32 (H.a + r.a), w32 (H.b + r.b), w32 (H.c + r.c), w32 (H.d + r.d),
   w32 (H.e + r.e), w32 (H.f + r.f), w32 (H.g + r.g), w32 (H.h + r.h)⟩

/-- The eight bytes of a big-endian 64-bit length field. -/
def be64 (n : Nat) : List Nat :=
  [(n >>> 56) % 256, (n >>> 48) % 256, (n >>> 40) % 256, (n >>> 32) % 256,
   (n >>> 24) % 256, (n >>> 16) % 256, (n >>> 8) % 256, n % 256]

/-- SHA-256 padding: a 0x80 byte, zeros to 56 mod 64, then the bit length. -/
def padMessage (msg : List Nat) : List Nat :=
  let l := msg.length
  let z := (120 - ((l + 1) % 64)) % 64
  msg ++ [128] ++ List.replicate z 0 ++ be64 (l * 8)

/-- Split a byte list into 64-byte blocks. -/
def chunk64 (l : List Nat) : List (List Nat) :=
  if h : l = [] then []
  else l.take 64 :: chunk64 (l.drop 64)
termination_by l.length
decreasing_by
  have hl : 0 < l.length := List.length_pos.mpr h
  simp [List.length_drop]
  omega

/-- The four big-endian bytes of a 32-bit word. -/
def wordBE4 (w : Nat) : List Nat :=
  [(w >>> 24) % 256, (w >>> 16) % 256, (w >>> 8) % 256, w % 256]

/-- Serialize the final hash state as the 32 digest bytes. -/
def digestBytes (r : Regs) : List Nat :=
  wordBE4 r.a ++ wordBE4 r.b ++ wordBE4 r.c ++ wordBE4 r.d ++
  wordBE4 r.e ++ wordBE4 r.f ++ wordBE4 r.g ++ wordBE4 r.h

/-- SHA-256 of a byte list, as 32 digest bytes.  Embeds hashlib.sha256. -/
def sha256bytes (msg : List Nat) : List Nat :=
  digestBytes ((chunk64 (padMessage msg)).foldl compress initRegs)

/-- HMAC-SHA256 with byte-list key and message.  Embeds hmac.new(key, msg,
hashlib.sha256).digest(): keys beyond one block are hashed first, the key is
zero-padded to 64 bytes, then the nested opad and ipad hashes are taken. -/
def hmacSha256 (key msg : List Nat) : List Nat :=
  let k0 := if 64 < key.length then sha256bytes key else key
  let kp := k0 ++ List.replicate (64 - k0.length) 0
  sha256bytes ((kp.map (fun b => Nat.xor b 92)) ++
    sha256bytes ((kp.map (fun b => Nat.xor b 54)) ++ msg))

/-- Lower-case hexadecimal digit for a value below 16. -/
def hexDigitLower (n : Nat) : Char := Char.ofNat (if n < 10 then 48 + n else 87 + n)

/-- Upper-case hexadecimal digit for a value below 16, as Python percent
encoding emits it. -/
def hexDigitUpper (n : Nat) : Char := Char.ofNat (if n < 10 then 48 + n else 55 + n)

/-- Two lower-case hex characters per byte, in order. -/
def bytesToHexChars : List Nat → List Char
  | [] => []
  | b :: t => hexDigitLower (b / 16) :: hexDigitLower (b % 16) :: bytesToHexChars t

/-- Lower-case hex encoding of a byte list.  Embeds the .hexdigest() call. -/
def bytesToHex (bs : List Nat) : String := String.mk (bytesToHexChars bs)

/-- UTF-8 encoding of one Unicode scalar value, as Python str.encode emits
it. -/
def utf8Bytes (c : Nat) : List Nat :=
  if c < 128 then [c]
  else if c < 2048 then [192 + c / 64, 128 + c % 64]
  else if c < 65536 then [224 + c / 4096, 128 + (c / 64) % 64, 128 + c % 64]
  else [240 + c / 262144, 128 + (c / 4096) % 64, 128 + (c / 64) % 64, 128 + c % 64]

/-- UTF-8 bytes of a string.  Embeds s.encode("utf-8"). -/
def strBytes (s : String) : List Nat := s.data.flatMap (fun c => utf8Bytes c.toNat)

/-- Bytes that urllib quote_plus passes through unchanged: ASCII letters,
digits, underscore, dot, dash and tilde. -/
def isSafeByte (b : Nat) : Bool :=
  (48 ≤ b && b ≤ 57) || (65 ≤ b && b ≤ 90) || (97 ≤ b && b ≤ 122) ||
    b == 95 || b == 46 || b == 45 || b == 126

/-- Percent-encode the UTF-8 bytes of a string with space as plus, as
urllib.parse.quote_plus does for urlencode. -/
def quote_plus (s : String) : String :=
  String.mk ((strBytes s).flatMap (fun b =>
    if b == 32 then [Char.ofNat 43]
    else if isSafeByte b then [Char.ofNat b]
    else [Char.ofNat 37, hexDigitUpper (b / 16), hexDigitUpper (b % 16)]))

/-- Embeds urllib.parse.urlencode on an ordered mapping: key equals value
pairs joined with ampersands, both sides quote_plus encoded. -/
def urlencode (ps : List (String × String)) : String :=
  String.intercalate "&" (ps.map (fun kv => quote_plus kv.1 ++ "=" ++ quote_plus kv.2))

/-- Embeds Python str() on a dict whose keys are plain strings and whose
values are stored as their repr text: key repr, colon, space, value repr,
comma-space separated, inside braces. -/
def pyDictStr (d : List (String × String)) : String :=
  "\x7b" ++ String.intercalate ", "
    (d.map (fun kv => "\x27" ++ kv.1 ++ "\x27: " ++ kv.2)) ++ "\x7d"

/-- Header values in the Python header dict are heterogeneous: the token and
signature entries hold strings while the expiry entry holds the integer
expiry itself. -/
inductive HVal where
  | str : String → HVal
  | int : Nat → HVal

/-- Python truthiness of an optional dict argument: None is falsy and an
empty dict is falsy. -/
def truthy {α : Type} : Option (List α) → Bool
  | none => false
  | some l => !l.isEmpty

/-- Embeds Phemex._get_sign (src/onecall/phemex.py lines 415-417): the
lower-case hex digest of HMAC-SHA256 with the UTF-8 encoded api secret as key
over the UTF-8 encoded data string. -/
def get_sign (secret data : String) : String :=
  bytesToHex (hmacSha256 (strBytes secret) (strBytes data))

/-- Embeds Phemex._get_request_credentials (lines 419-430).  The signature
starts empty; a truthy params keyword signs path ++ urlencode(params) ++
str(expiry); otherwise a truthy payload keyword signs path ++ str(expiry) ++
str(payload); the returned header dict has exactly the access-token,
request-signature and request-expiry entries. -/
def get_request_credentials (secret key path : String) (expiry : Nat)
    (params payload : Option (List (String × String))) : List (String × HVal) :=
  let signature :=
    if truthy params then
      get_sign secret (path ++ urlencode (params.getD []) ++ toString expiry)
    else if truthy payload then
      get_sign secret (path ++ toString expiry ++ pyDictStr (payload.getD []))
    else ""
  [("x-phemex-access-token", HVal.str key),
   ("x-phemex-request-signature", HVal.str signature),
   ("x-phemex-request-expiry", HVal.int expiry)]

/-- A JSON value as parsed from an exchange response. -/
inductive JVal where
  | null : JVal
  | bool : Bool → JVal
  | num : Int → JVal
  | str : String → JVal
  | arr : List JVal → JVal
  | obj : List (String × JVal) → JVal

/-- The external HTTP transport collaborator (base.exchange.send_request):
it receives the verb, path, header dict, encoded query string and optional
body and produces the parsed JSON response. -/
def TransportFn : Type :=
  String → String → List (String × HVal) → String → Option (List (String × String)) → JVal

/-- Embeds the unconditional urlencode(params) call of _signed_request on an
optional argument: urllib.parse.urlencode raises TypeError when handed None,
and encodes a dict normally. -/
def urlencodeOpt : Option (List (String × String)) → Except PyErr String
  | none => .error .typeError
  | some ps => .ok (urlencode ps)

/-- Embeds Phemex._signed_request (lines 409-413): compute expiry as the
current timestamp plus one, build the credential headers, urlencode the
params argument unconditionally, and only then hand the request to the
transport. -/
def signed_request (transport : TransportFn) (secret key : String) (now : Nat)
    (method path : String) (params payload : Option (List (String × String))) :
    Except PyErr JVal :=
  let expiry := now + 1
  let header := get_request_credentials secret key path expiry params payload
  match urlencodeOpt params with
  | .error e => .error e
  | .ok q => .ok (transport method path header q payload)

/-- One entry of the static endpoint descriptor table. -/
structure EndpointDesc where
  method : String
  path : String
  rate_limit : Nat

/-- Embeds the _path_config table built in Phemex.__init__ (lines 21-31). -/
def path_config : List (String × EndpointDesc) := [
  ("get_positions", ⟨"GET", "/accounts/accountPositions", 50⟩),
  ("cancel_orders", ⟨"DELETE", "/orders/all", 50⟩),
  ("get_data", ⟨"GET", "/exchange/public/md/v2/kline", 50⟩),
  ("get_orderbook", ⟨"GET", "/md/orderbook", 50⟩),
  ("get_balance", ⟨"GET", "accounts/accountPositions", 50⟩),
  ("market_order", ⟨"POST", "/orders", 50⟩),
  ("limit_order", ⟨"POST", "/orders", 50⟩),
  ("get_closed_orders", ⟨"GET", "/exchange/order/list", 50⟩),
  ("get_open_orders", ⟨"GET", "/orders/activeList", 50⟩)]

/-- The method field the code reads with self._path_config.get(name).get
with key method; every name used by the code is present in the table. -/
def cfg_method (name : String) : String :=
  ((path_config.lookup name).getD ⟨"", "", 0⟩).method

/-- The path field the code reads with self._path_config.get(name).get with
key path. -/
def cfg_path (name : String) : String :=
  ((path_config.lookup name).getD ⟨"", "", 0⟩).path

/-- The transient request value a single endpoint call hands to
_signed_request: verb, path and exactly one of params or body payload. -/
structure Request where
  method : String
  path : String
  params : Option (List (String × String))
  payload : Option (List (String × String))

/-- Python repr text of a string value, for storing inside a payload dict;
the strings this client passes contain no quotes or escapes. -/
def pyRepr (s : String) : String := "\x27" ++ s ++ "\x27"

/-- Request built by get_positions (lines 79-84). -/
def get_positions_request (currency : String) : Request :=
  ⟨cfg_method "get_positions", cfg_path "get_positions",
   some [("currency", currency)], none⟩

/-- Request built by cancel_orders (lines 94-100); the True flag urlencodes
as its str text. -/
def cancel_orders_request (symbol : String) : Request :=
  ⟨cfg_method "cancel_orders", cfg_path "cancel_orders",
   some [("symbol", symbol), ("untriggered", "True")], none⟩

/-- Request built by get_data (lines 120-125). -/
def get_data_request (symbol : String) : Request :=
  ⟨cfg_method "get_data", cfg_path "get_data", some [("symbol", symbol)], none⟩

/-- Request built by get_orderbook (lines 156-161). -/
def get_orderbook_request (symbol : String) : Request :=
  ⟨cfg_method "get_orderbook", cfg_path "get_orderbook",
   some [("symbol", symbol)], none⟩

/-- Request built by get_balance (lines 191-196). -/
def get_balance_request (currency : String) : Request :=
  ⟨cfg_method "get_balance", cfg_path "get_balance",
   some [("currency", currency)], none⟩

/-- Body payload built by market_order (lines 243-250); values are stored as
their Python repr text and extra holds the splatted keyword arguments. -/
def market_order_payload (client_order_id symbol side order_qty : String)
    (extra : List (String × String)) : List (String × String) :=
  [("clOrdID", pyRepr client_order_id), ("symbol", pyRepr symbol),
   ("side", pyRepr side), ("ordType", pyRepr "Market"), ("orderQty", order_qty)] ++ extra

/-- Request built by market_order (lines 251-253): only a body payload, the
params argument is left at its None default. -/
def market_order_request (client_order_id symbol side order_qty : String)
    (extra : List (String × String)) : Request :=
  ⟨cfg_method "market_order", cfg_path "market_order", none,
   some (market_order_payload client_order_id symbol side order_qty extra)⟩

/-- Body payload built by limit_order (lines 301-309). -/
def limit_order_payload (client_order_id symbol side order_qty price : String)
    (extra : List (String × String)) : List (String × String) :=
  [("clOrdID", pyRepr client_order_id), ("symbol", pyRepr symbol),
   ("side", pyRepr side), ("ordType", pyRepr "Limit"), ("orderQty", order_qty),
   ("priceEp", price)] ++ extra

/-- Request built by limit_order (lines 310-312): only a body payload. -/
def limit_order_request (client_order_id symbol side order_qty price : String)
    (extra : List (String × String)) : Request :=
  ⟨cfg_method "limit_order", cfg_path "limit_order", none,
   some (limit_order_payload client_order_id symbol side order_qty price extra)⟩

/-- Request built by get_closed_orders (lines 349-355). -/
def get_closed_orders_request (symbol : String) : Request :=
  ⟨cfg_method "get_closed_orders", cfg_path "get_closed_orders",
   some [("symbol", symbol), ("ordStatus", "Filled")], none⟩

/-- Request built by get_open_orders (lines 401-406). -/
def get_open_orders_request (symbol : String) : Request :=
  ⟨cfg_method "get_open_orders", cfg_path "get_open_orders",
   some [("symbol", symbol)], none⟩

/-- Run a built request through _signed_request with the given transport. -/
def run_request (transport : TransportFn) (secret key : String) (now : Nat)
    (r : Request) : Except PyErr JVal :=
  signed_request transport secret key now r.method r.path r.params r.payload

/-- Embeds Python subscripting d[k] on a parsed JSON value: a missing key
raises KeyError and subscripting a non-object with a string raises
TypeError. -/
def jsonIndex : JVal → String → Except PyErr JVal
  | .obj fs, k =>
      match fs.lookup k with
      | some v => .ok v
      | none => .error .keyError
  | _, _ => .error .typeError

/-- Embeds Python d.get(k, default) on a parsed JSON value: a missing key
yields the default and calling .get on a non-object raises
AttributeError. -/
def pyGet (v : JVal) (k : String) (default : JVal) : Except PyErr JVal :=
  match v with
  | .obj fs => .ok ((fs.lookup k).getD default)
  | _ => .error .attributeError

/-- Embeds the return expression of get_positions (line 85):
response.get with key data defaulting to an empty dict, then .get with key
positions defaulting to None. -/
def get_positions_post (response : JVal) : Except PyErr JVal := do
  let d ← pyGet response "data" (.obj [])
  pyGet d "positions" .null

/-- Embeds the return expression of get_balance (line 197): response.get
with key data defaulting to an empty dict, then .get with key account. -/
def get_balance_post (response : JVal) : Except PyErr JVal := do
  let d ← pyGet response "data" (.obj [])
  pyGet d "account" .null

/-- cancel_orders returns the parsed response unchanged (line 101). -/
def cancel_orders_post (response : JVal) : JVal := response

/-- get_closed_orders returns the parsed response unchanged (line 356). -/
def get_closed_orders_post (response : JVal) : JVal := response

/-- get_open_orders returns the parsed response unchanged (line 407). -/
def get_open_orders_post (response : JVal) : JVal := response

/-- market_order returns the parsed response unchanged (line 254). -/
def market_order_post (response : JVal) : JVal := response

/-- limit_order returns the parsed response unchanged (line 313). -/
def limit_order_post (response : JVal) : JVal := response

/-- The column list get_data passes to the DataFrame constructor
(line 128). -/
def get_data_columns : List String :=
  ["timestamp", "interval", "last_close", "open", "high", "low", "close",
   "volume", "turnover"]

/-- The column list get_orderbook passes to the DataFrame constructor
(line 164). -/
def get_orderbook_columns : List String := ["price", "QTY"]

/-- The body of the try block of get_data (lines 127-129): subscript the
response with key rows and hand the rows with the column list to the
DataFrame constructor, a pandas collaborator abstracted as mkDF. -/
def get_data_tabular {β : Type} (mkDF : JVal → List String → Except PyErr β)
    (response : JVal) : Except PyErr β := do
  let rows ← jsonIndex response "rows"
  mkDF rows get_data_columns

/-- Embeds the tail of get_data (lines 126-132): with is_dataframe the try
block either returns the converted table, or its exception is caught, logged
and the raw parsed response returned; without is_dataframe the raw response
is returned.  The Option PyErr component records what the except branch
logged. -/
def get_data_result {β : Type} (mkDF : JVal → List String → Except PyErr β)
    (response : JVal) (is_dataframe : Bool) : (JVal ⊕ β) × Option PyErr :=
  if is_dataframe then
    match get_data_tabular mkDF response with
    | .ok df => (.inr df, none)
    | .error e => (.inl response, some e)
  else (.inl response, none)

/-- The body of the try block of get_orderbook (lines 163-168): build a
bids table, build an asks table from the same nested subscripts, and append
them; mkDF and dfAppend abstract the pandas collaborators. -/
def get_orderbook_tabular {β : Type} (mkDF : JVal → List String → Except PyErr β)
    (dfAppend : β → β → Except PyErr β) (response : JVal) : Except PyErr β := do
  let result ← jsonIndex response "result"
  let book ← jsonIndex result "book"
  let bids ← jsonIndex book "bids"
  let df ← mkDF bids get_orderbook_columns
  let result2 ← jsonIndex response "result"
  let book2 ← jsonIndex result2 "book"
  let asks ← jsonIndex book2 "asks"
  let df2 ← mkDF asks get_orderbook_columns
  dfAppend df df2

/-- Embeds the tail of get_orderbook (lines 162-171): same try, except and
fall-through shape as get_data. -/
def get_orderbook_result {β : Type} (mkDF : JVal → List String → Except PyErr β)
    (dfAppend : β → β → Except PyErr β) (response : JVal) (is_dataframe : Bool) :
    (JVal ⊕ β) × Option PyErr :=
  if is_dataframe then
    match get_orderbook_tabular mkDF dfAppend response with
    | .ok df => (.inr df, none)
    | .error e => (.inl response, some e)
  else (.inl response, none)

/-! ### Helper lemmas about digest shape -/

/-- The serialized hash state is always 32 bytes. -/
theorem digestBytes_length (r : Regs) : (digestBytes r).length = 32 := by
  simp [digestBytes, wordBE4]

/-- A SHA-256 digest is always 32 bytes. -/
theorem sha256bytes_length (m : List Nat) : (sha256bytes m).length = 32 :=
  digestBytes_length _

/-- An HMAC-SHA256 digest is always 32 bytes. -/
theorem hmacSha256_length (k m : List Nat) : (hmacSha256 k m).length = 32 :=
  sha256bytes_length _

/-- Hex rendering yields two characters per byte. -/
theorem bytesToHexChars_length (bs : List Nat) :
    (bytesToHexChars bs).length = 2 * bs.length := by
  induction bs with
  | nil => rfl
  | cons b t ih => simp [bytesToHexChars, ih]; omega

/-- Hex rendering of a byte list has twice its length. -/
theorem bytesToHex_length (bs : List Nat) : (bytesToHex bs).length = 2 * bs.length :=
  bytesToHexChars_length bs

/-- Every signature the signing routine produces has 64 characters. -/
theorem get_sign_length (secret data : String) : (get_sign secret data).length = 64 := by
  show (bytesToHex (hmacSha256 (strBytes secret) (strBytes data))).length = 64
  rw [bytesToHex_length, hmacSha256_length]

/-- The sixteen lower-case hexadecimal characters. -/
def lowerHexDigits : List Char := "0123456789abcdef".data

/-- Every digit below 16 renders to a lower-case hex character. -/
theorem hexDigitLower_mem : ∀ n, n < 16 → hexDigitLower n ∈ lowerHexDigits := by decide

/-- Bytes of a serialized word are below 256. -/
theorem wordBE4_lt (w : Nat) : ∀ b ∈ wordBE4 w, b < 256 := by
  intro b hb
  simp [wordBE4] at hb
  rcases hb with h | h | h | h <;> subst h <;> exact Nat.mod_lt _ (by decide)

/-- Bytes of a serialized hash state are below 256. -/
theorem digestBytes_lt (r : Regs) : ∀ b ∈ digestBytes r, b < 256 := by
  intro b hb
  simp only [digestBytes, List.mem_append] at hb
  rcases hb with ((((((h | h) | h) | h) | h) | h) | h) | h <;> exact wordBE4_lt _ _ h

/-- Bytes of a SHA-256 digest are below 256. -/
theorem sha256bytes_lt (m : List Nat) : ∀ b ∈ sha256bytes m, b < 256 :=
  digestBytes_lt _

/-- Bytes of an HMAC-SHA256 digest are below 256. -/
theorem hmacSha256_lt (k m : List Nat) : ∀ b ∈ hmacSha256 k m, b < 256 :=
  sha256bytes_lt _

/-- Hex rendering of genuine bytes uses only lower-case hex characters. -/
theorem bytesToHexChars_mem (bs : List Nat) (hbs : ∀ b ∈ bs, b < 256) :
    ∀ c ∈ bytesToHexChars bs, c ∈ lowerHexDigits := by
  induction bs with
  | nil => intro c hc; simp [bytesToHexChars] at hc
  | cons b t ih =>
      intro c hc
      have hb : b < 256 := hbs b (by simp)
      have hd : b / 16 < 16 := Nat.div_lt_of_lt_mul (by omega)
      have hm : b % 16 < 16 := Nat.mod_lt _ (by decide)
      simp only [bytesToHexChars, List.mem_cons] at hc
      rcases hc with h | h | h
      · exact h ▸ hexDigitLower_mem _ hd
      · exact h ▸ hexDigitLower_mem _ hm
      · exact ih (fun x hx => hbs x (List.mem_cons_of_mem _ hx)) c h

/-- Every character of a produced signature is a lower-case hex digit. -/
theorem get_sign_chars (secret data : String) :
    ∀ c ∈ (get_sign secret data).data, c ∈ lowerHexDigits := by
  intro c hc
  exact bytesToHexChars_mem _ (hmacSha256_lt (strBytes secret) (strBytes data)) c hc

/-! ### Claim theorems -/

/-- C1: with a non-empty query-parameter mapping, the signature header the
request-credentials builder emits is exactly the lower-case hex encoding of
HMAC-SHA256 keyed by the secret over path ++ urlencode(params) ++
str(expiry), and its text uses only lower-case hex characters. -/
theorem params_signature_hmac (secret key path : String) (expiry : Nat)
    (params : List (String × String)) (payload : Option (List (String × String)))
    (h : params ≠ []) :
    (get_request_credentials secret key path expiry (some params) payload).lookup
        "x-phemex-request-signature"
      = some (HVal.str (bytesToHex (hmacSha256 (strBytes secret)
          (strBytes (path ++ urlencode params ++ toString expiry)))))
    ∧ ∀ c ∈ (get_sign secret (path ++ urlencode params ++ toString expiry)).data,
        c ∈ lowerHexDigits := by
  cases params with
  | nil => exact absurd rfl h
  | cons q qs => exact ⟨rfl, fun c hc => get_sign_chars _ _ c hc⟩

/-- C1 witness at a concrete call. -/
theorem params_signature_hmac_witness :
    ([("currency", "USD")] : List (String × String)) ≠ [] ∧
    (get_request_credentials "sec" "key" "/accounts/accountPositions" 3
        (some [("currency", "USD")]) none).lookup "x-phemex-request-signature"
      = some (HVal.str (bytesToHex (hmacSha256 (strBytes "sec")
          (strBytes ("/accounts/accountPositions" ++ urlencode [("currency", "USD")] ++
            toString 3))))) :=
  ⟨by decide, (params_signature_hmac "sec" "key" "/accounts/accountPositions" 3
    [("currency", "USD")] none (by decide)).1⟩

/-- C2: with a non-empty body payload and falsy query parameters, the
signature header is exactly the lower-case hex encoding of HMAC-SHA256 keyed
by the secret over path ++ str(expiry) ++ str(payload), the payload rendered
by the default dict stringification, and its text uses only lower-case hex
characters. -/
theorem payload_signature_hmac (secret key path : String) (expiry : Nat)
    (params : Option (List (String × String))) (payload : List (String × String))
    (hp : truthy params = false) (hpl : payload ≠ []) :
    (get_request_credentials secret key path expiry params (some payload)).lookup
        "x-phemex-request-signature"
      = some (HVal.str (bytesToHex (hmacSha256 (strBytes secret)
          (strBytes (path ++ toString expiry ++ pyDictStr payload)))))
    ∧ ∀ c ∈ (get_sign secret (path ++ toString expiry ++ pyDictStr payload)).data,
        c ∈ lowerHexDigits := by
  cases payload with
  | nil => exact absurd rfl hpl
  | cons q qs =>
      constructor
      · simp only [get_request_credentials, hp, Bool.false_eq_true, if_false]
        rfl
      · exact fun c hc => get_sign_chars _ _ c hc

/-- C2 witness at a concrete call. -/
theorem payload_signature_hmac_witness :
    truthy (none : Option (List (String × String))) = false ∧
    ([("clOrdID", "\x27a\x27")] : List (String × String)) ≠ [] ∧
    (get_request_credentials "sec" "key" "/orders" 3 none
        (some [("clOrdID", "\x27a\x27")])).lookup "x-phemex-request-signature"
      = some (HVal.str (bytesToHex (hmacSha256 (strBytes "sec")
          (strBytes ("/orders" ++ toString 3 ++ pyDictStr [("clOrdID", "\x27a\x27")]))))) :=
  ⟨rfl, by decide, (payload_signature_hmac "sec" "key" "/orders" 3 none
    [("clOrdID", "\x27a\x27")] rfl (by decide)).1⟩

/-- C4: when both query parameters and a body payload are supplied, the
credentials do not depend on the payload at all, and the signature is the
query-parameter one. -/
theorem params_precedence (secret key path : String) (expiry : Nat)
    (params : List (String × String))
    (payload1 payload2 : Option (List (String × String)))
    (h : params ≠ []) :
    get_request_credentials secret key path expiry (some params) payload1
      = get_request_credentials secret key path expiry (some params) payload2
    ∧ (get_request_credentials secret key path expiry (some params) payload1).lookup
        "x-phemex-request-signature"
      = some (HVal.str (get_sign secret (path ++ urlencode params ++ toString expiry))) := by
  cases params with
  | nil => exact absurd rfl h
  | cons q qs =>
      constructor
      · simp [get_request_credentials, truthy]
      · rfl

/-- C4 witness at a concrete call supplying both params and payload. -/
theorem params_precedence_witness :
    ([("symbol", "BTCUSD")] : List (String × String)) ≠ [] ∧
    get_request_credentials "sec" "key" "/p" 9 (some [("symbol", "BTCUSD")])
        (some [("clOrdID", "\x27a\x27")])
      = get_request_credentials "sec" "key" "/p" 9 (some [("symbol", "BTCUSD")]) none :=
  ⟨by decide, (params_precedence "sec" "key" "/p" 9 [("symbol", "BTCUSD")]
    (some [("clOrdID", "\x27a\x27")]) none (by decide)).1⟩

/-- C5: with neither query parameters nor body payload present in the Python
truthiness sense, the signature header value is the empty string. -/
theorem empty_signature_when_absent (secret key path : String) (expiry : Nat)
    (params payload : Option (List (String × String)))
    (hp : truthy params = false) (hpl : truthy payload = false) :
    (get_request_credentials secret key path expiry params payload).lookup
        "x-phemex-request-signature" = some (HVal.str "") := by
  simp only [get_request_credentials, hp, hpl, Bool.false_eq_true, if_false]
  rfl

/-- C5 witness at a concrete call with both arguments left at None. -/
theorem empty_signature_when_absent_witness :
    truthy (none : Option (List (String × String))) = false ∧
    (get_request_credentials "sec" "key" "/p" 9 none none).lookup
        "x-phemex-request-signature" = some (HVal.str "") :=
  ⟨rfl, empty_signature_when_absent "sec" "key" "/p" 9 none none rfl rfl⟩

/-- C7: the signing routine and the credential builder are deterministic:
identical secret, path, data, key, expiry, params and payload inputs give
identical signatures and identical header sets. -/
theorem signing_deterministic (s1 s2 k1 k2 p1 p2 d1 d2 : String) (e1 e2 : Nat)
    (pr1 pr2 pl1 pl2 : Option (List (String × String)))
    (hs : s1 = s2) (hk : k1 = k2) (hp : p1 = p2) (hd : d1 = d2) (he : e1 = e2)
    (hpr : pr1 = pr2) (hpl : pl1 = pl2) :
    get_sign s1 d1 = get_sign s2 d2
    ∧ get_request_credentials s1 k1 p1 e1 pr1 pl1
      = get_request_credentials s2 k2 p2 e2 pr2 pl2 := by
  subst hs hk hp hd he hpr hpl
  exact ⟨rfl, rfl⟩

/-- C7 witness at a concrete repeated call. -/
theorem signing_deterministic_witness :
    get_sign "sec" "/p3" = get_sign "sec" "/p3"
    ∧ get_request_credentials "sec" "key" "/p" 3 none none
      = get_request_credentials "sec" "key" "/p" 3 none none :=
  signing_deterministic "sec" "sec" "key" "key" "/p" "/p" "/p3" "/p3" 3 3
    none none none none rfl rfl rfl rfl rfl rfl rfl

/-- C3: every _signed_request call whose params argument is None, in
particular the market_order and limit_order calls that pass only a body
payload, fails with TypeError from the unconditional urlencode(params) call,
whatever the transport would have answered: no body-payload request reaches
the transport. -/
theorem body_request_typeerror (transport : TransportFn) (secret key : String)
    (now : Nat) (co sym side qty price : String) (extra : List (String × String)) :
    run_request transport secret key now (market_order_request co sym side qty extra)
      = .error .typeError
    ∧ run_request transport secret key now
        (limit_order_request co sym side qty price extra) = .error .typeError
    ∧ ∀ (method path : String) (d : List (String × String)),
        signed_request transport secret key now method path none (some d)
          = .error .typeError :=
  ⟨rfl, rfl, fun _ _ _ => rfl⟩

/-- C6: the credential header set consists of exactly the access-token,
request-signature and request-expiry entries, carrying the api key, the
computed signature and the integer expiry; a secret distinct from the key,
not of signature length 64 and not empty can appear in no header value. -/
theorem header_entries_exact (secret key path : String) (expiry : Nat)
    (params payload : Option (List (String × String)))
    (h1 : secret ≠ key) (h2 : secret.length ≠ 64) (h3 : secret ≠ "") :
    (get_request_credentials secret key path expiry params payload).map Prod.fst
      = ["x-phemex-access-token", "x-phemex-request-signature", "x-phemex-request-expiry"]
    ∧ (get_request_credentials secret key path expiry params payload).lookup
        "x-phemex-access-token" = some (HVal.str key)
    ∧ (get_request_credentials secret key path expiry params payload).lookup
        "x-phemex-request-expiry" = some (HVal.int expiry)
    ∧ (∃ s, (get_request_credentials secret key path expiry params payload).lookup
        "x-phemex-request-signature" = some (HVal.str s))
    ∧ ∀ v ∈ (get_request_credentials secret key path expiry params payload).map Prod.snd,
        v ≠ HVal.str secret := by
  refine ⟨rfl, rfl, rfl, ⟨_, rfl⟩, ?_⟩
  intro v hv
  simp only [get_request_credentials, List.map_cons, List.map_nil, List.mem_cons,
    List.not_mem_nil, or_false] at hv
  rcases hv with h | h | h
  · subst h
    intro hc
    injection hc with he
    exact h1 he.symm
  · subst h
    intro hc
    injection hc with he
    by_cases h4 : truthy params = true
    · rw [if_pos h4] at he
      have hl := get_sign_length secret (path ++ urlencode (params.getD []) ++ toString expiry)
      rw [he] at hl
      exact h2 hl
    · rw [if_neg h4] at he
      by_cases h5 : truthy payload = true
      · rw [if_pos h5] at he
        have hl := get_sign_length secret (path ++ toString expiry ++ pyDictStr (payload.getD []))
        rw [he] at hl
        exact h2 hl
      · rw [if_neg h5] at he
        exact h3 he.symm
  · subst h
    intro hc
    exact HVal.noConfusion hc

/-- C6 witness at a concrete call. -/
theorem header_entries_exact_witness :
    ("s" : String) ≠ "k" ∧ ("s" : String).length ≠ 64 ∧ ("s" : String) ≠ "" ∧
    ∃ s, (get_request_credentials "s" "k" "/p" 2 none none).lookup
        "x-phemex-request-signature" = some (HVal.str s) :=
  ⟨by decide, by decide, by decide,
    (header_entries_exact "s" "k" "/p" 2 none none (by decide) (by decide)
      (by decide)).2.2.2.1⟩

/-- C8 counterexample: the path recorded for get_balance is not the same
string as the path recorded for get_positions; the former lacks the leading
slash. -/
theorem balance_positions_path_differ :
    cfg_path "get_balance" ≠ cfg_path "get_positions" := by decide

/-- C8 amended: every endpoint method issues its request with exactly the
method and path of its entry in the static descriptor table; balance and
positions both target the accountPositions endpoint, but the get_balance
path lacks the leading slash, so the two path strings differ by exactly that
slash. -/
theorem endpoint_table_methods (currency symbol co side qty price : String)
    (extra : List (String × String)) :
    (get_positions_request currency).method = "GET"
    ∧ (get_positions_request currency).path = "/accounts/accountPositions"
    ∧ (cancel_orders_request symbol).method = "DELETE"
    ∧ (cancel_orders_request symbol).path = "/orders/all"
    ∧ (get_data_request symbol).method = "GET"
    ∧ (get_data_request symbol).path = "/exchange/public/md/v2/kline"
    ∧ (get_orderbook_request symbol).method = "GET"
    ∧ (get_orderbook_request symbol).path = "/md/orderbook"
    ∧ (get_balance_request currency).method = "GET"
    ∧ (get_balance_request currency).path = "accounts/accountPositions"
    ∧ (market_order_request co symbol side qty extra).method = "POST"
    ∧ (market_order_request co symbol side qty extra).path = "/orders"
    ∧ (limit_order_request co symbol side qty price extra).method = "POST"
    ∧ (limit_order_request co symbol side qty price extra).path = "/orders"
    ∧ (get_closed_orders_request symbol).method = "GET"
    ∧ (get_closed_orders_request symbol).path = "/exchange/order/list"
    ∧ (get_open_orders_request symbol).method = "GET"
    ∧ (get_open_orders_request symbol).path = "/orders/activeList"
    ∧ "/" ++ (get_balance_request currency).path = (get_positions_request currency).path :=
  ⟨rfl, rfl, rfl, rfl, rfl, rfl, rfl, rfl, rfl, rfl, rfl, rfl, rfl, rfl, rfl, rfl,
   rfl, rfl, rfl⟩

/-- C9: when the try-block tabular conversion of get_data or get_orderbook
raises, the exception is caught and logged and the raw parsed response is
returned. -/
theorem tabular_fallback_returns_raw {β : Type}
    (mkDF : JVal → List String → Except PyErr β) (dfAppend : β → β → Except PyErr β)
    (r1 r2 : JVal) (e1 e2 : PyErr)
    (h1 : get_data_tabular mkDF r1 = .error e1)
    (h2 : get_orderbook_tabular mkDF dfAppend r2 = .error e2) :
    get_data_result mkDF r1 true = (.inl r1, some e1)
    ∧ get_orderbook_result mkDF dfAppend r2 true = (.inl r2, some e2) := by
  constructor
  · simp [get_data_result, h1]
  · simp [get_orderbook_result, h2]

/-- C9 witness: a response without the subscripted keys makes both
conversions raise KeyError, and both methods return the raw response. -/
theorem tabular_fallback_returns_raw_witness :
    get_data_tabular (fun (_ : JVal) (_ : List String) => (Except.ok () : Except PyErr Unit))
        (JVal.obj []) = .error .keyError
    ∧ get_data_result (fun (_ : JVal) (_ : List String) => (Except.ok () : Except PyErr Unit))
        (JVal.obj []) true = (.inl (JVal.obj []), some .keyError) :=
  ⟨rfl, (tabular_fallback_returns_raw
    (fun (_ : JVal) (_ : List String) => (Except.ok () : Except PyErr Unit))
    (fun _ _ => Except.ok ()) (JVal.obj []) (JVal.obj []) .keyError .keyError
    rfl rfl).1⟩

/-- C10 counterexample: on a full response envelope, get_positions returns
only the positions list under the data field and get_balance only the
account object, not the envelope itself. -/
theorem positions_balance_subfield :
    get_positions_post (JVal.obj [("code", JVal.num 0), ("msg", JVal.str ""),
        ("data", JVal.obj [("positions", JVal.arr [])])]) = .ok (JVal.arr [])
    ∧ JVal.arr [] ≠ JVal.obj [("code", JVal.num 0), ("msg", JVal.str ""),
        ("data", JVal.obj [("positions", JVal.arr [])])]
    ∧ get_balance_post (JVal.obj [("data", JVal.obj [("account", JVal.num 7)])])
      = .ok (JVal.num 7)
    ∧ JVal.num 7 ≠ JVal.obj [("data", JVal.obj [("account", JVal.num 7)])] := by
  refine ⟨rfl, ?_, rfl, ?_⟩ <;> intro hco <;> exact JVal.noConfusion hco

/-- C10 amended: cancel_orders, get_closed_orders, get_open_orders,
market_order and limit_order return the parsed response unchanged; get_data
and get_orderbook return it unchanged when no tabular reshaping is
requested; get_positions and get_balance return the positions and account
sub-fields found under the data field of the envelope. -/
theorem endpoint_return_values {β : Type}
    (mkDF : JVal → List String → Except PyErr β) (dfAppend : β → β → Except PyErr β)
    (r : JVal) (fs ds gs es : List (String × JVal)) (ps acct : JVal)
    (h1 : fs.lookup "data" = some (JVal.obj ds))
    (h2 : ds.lookup "positions" = some ps)
    (h3 : gs.lookup "data" = some (JVal.obj es))
    (h4 : es.lookup "account" = some acct) :
    cancel_orders_post r = r
    ∧ get_closed_orders_post r = r
    ∧ get_open_orders_post r = r
    ∧ market_order_post r = r
    ∧ limit_order_post r = r
    ∧ get_data_result mkDF r false = (.inl r, none)
    ∧ get_orderbook_result mkDF dfAppend r false = (.inl r, none)
    ∧ get_positions_post (JVal.obj fs) = .ok ps
    ∧ get_balance_post (JVal.obj gs) = .ok acct := by
  refine ⟨rfl, rfl, rfl, rfl, rfl, rfl, rfl, ?_, ?_⟩
  · unfold get_positions_post
    rw [show pyGet (JVal.obj fs) "data" (JVal.obj []) = Except.ok (JVal.obj ds) by
      simp [pyGet, h1]]
    show pyGet (JVal.obj ds) "positions" JVal.null = Except.ok ps
    simp [pyGet, h2]
  · unfold get_balance_post
    rw [show pyGet (JVal.obj gs) "data" (JVal.obj []) = Except.ok (JVal.obj es) by
      simp [pyGet, h3]]
    show pyGet (JVal.obj es) "account" JVal.null = Except.ok acct
    simp [pyGet, h4]

/-- C10 amended witness at concrete envelopes. -/
theorem endpoint_return_values_witness :
    ([("data", JVal.obj [("positions", JVal.arr [])])].lookup "data"
        = some (JVal.obj [("positions", JVal.arr [])]))
    ∧ ([("positions", JVal.arr [])].lookup "positions" = some (JVal.arr []))
    ∧ ([("data", JVal.obj [("account", JVal.num 7)])].lookup "data"
        = some (JVal.obj [("account", JVal.num 7)]))
    ∧ ([("account", JVal.num 7)].lookup "account" = some (JVal.num 7))
    ∧ get_positions_post (JVal.obj [("data", JVal.obj [("positions", JVal.arr [])])])
        = .ok (JVal.arr [])
    ∧ get_balance_post (JVal.obj [("data", JVal.obj [("account", JVal.num 7)])])
        = .ok (JVal.num 7) :=
  ⟨rfl, rfl, rfl, rfl,
    (endpoint_return_values (fun (_ : JVal) (_ : List String) => (Except.ok () : Except PyErr Unit))
      (fun _ _ => Except.ok ()) JVal.null
      [("data", JVal.obj [("positions", JVal.arr [])])] [("positions", JVal.arr [])]
      [("data", JVal.obj [("account", JVal.num 7)])] [("account", JVal.num 7)]
      (JVal.arr []) (JVal.num 7) rfl rfl rfl rfl).2.2.2.2.2.2.2.1,
    (endpoint_return_values (fun (_ : JVal) (_ : List String) => (Except.ok () : Except PyErr Unit))
      (fun _ _ => Except.ok ()) JVal.null
      [("data", JVal.obj [("positions", JVal.arr [])])] [("positions", JVal.arr [])]
      [("data", JVal.obj [("account", JVal.num 7)])] [("account", JVal.num 7)]
      (JVal.arr []) (JVal.num 7) rfl rfl rfl rfl).2.2.2.2.2.2.2.2⟩

